import Mathlib

/-!
# Verification of the STAPI_HA SensorThings integration core

Shallow embedding of the dual-channel (poll + MQTT push) reconciliation
core of the `sensorthings` Home Assistant integration:

* `sensorthings/sensor.py`   — battery classification, entity creation,
  the per-entity value resolvers (`native_value`) and push handlers;
* `sensorthings/mqtt_listener.py` — listener state, connect/disconnect
  callbacks, message decoding and routing, subscribe/unsubscribe, stop;
* `sensorthings/const.py`    — defaults.

Python dicts parsed from JSON are embedded as structures whose fields are
`Option`-valued exactly where the code reads them with `.get(...)` (absent
key = `none`).  SensorThings `@iot.id` values may be JSON numbers or
strings, so identifiers are a sum type carrying Python truthiness.
Scalar observation results are embedded as `Int` (the claims only move
them around and compare battery percentages).  Timestamps are ISO strings.
-/

/-- A SensorThings `@iot.id`: a JSON number or a JSON string.  The sum is
needed because Python truthiness (`if datastream_id:`) distinguishes
`0`/`""` from other values. -/
inductive IotId where
  | num : Int → IotId
  | str : String → IotId
deriving DecidableEq, Repr

/-- Python truthiness of an id value: `0` and `""` are falsy. -/
def IotId.truthy : IotId → Bool
  | .num n => n ≠ 0
  | .str s => s ≠ ""

/-- An Observation as delivered by the poll channel: the code reads
`obs[0].get("result")`, so `result` is optional. -/
structure Observation where
  result : Option Int
  phenomenonTime : Option String
deriving DecidableEq, Repr

/-- A Datastream dict: `@iot.id`, `name` and the expanded `Observations`
list (the code reads each with `.get`). -/
structure Datastream where
  iotId : Option IotId
  name : Option String
  observations : List Observation
deriving DecidableEq, Repr

/-- A Thing dict with its expanded `Datastreams`. -/
structure Thing where
  iotId : Option IotId
  name : Option String
  datastreams : List Datastream
deriving DecidableEq, Repr

/-- Whether the first character list starts the second. -/
def startsChars : List Char → List Char → Bool
  | [], _ => true
  | _ :: _, [] => false
  | a :: as, b :: bs => a = b && startsChars as bs

/-- Substring containment on character lists, embedding Python's
`needle in haystack` on strings. -/
def containsSub (hay pat : List Char) : Bool :=
  match hay with
  | [] => pat.isEmpty
  | _ :: t => startsChars pat hay || containsSub t pat

/-- Python `str.lower()` on the characters of a string. -/
def lowerChars (s : String) : List Char :=
  s.data.map Char.toLower

/-- `_is_battery_datastream` (sensor.py): the display name, lowercased,
contains `"battery"` or `"power"`; a missing name defaults to `""`. -/
def isBatteryDatastream (ds : Datastream) : Bool :=
  let dsName := lowerChars (ds.name.getD "")
  containsSub dsName "battery".data || containsSub dsName "power".data

/-- `_has_battery_datastream` (sensor.py): the Thing has at least one
battery-like datastream. -/
def hasBatteryDatastream (t : Thing) : Bool :=
  t.datastreams.any isBatteryDatastream

/-- The loop of `_find_battery_datastream` over the `Datastreams` list:
first battery-like entry, or `None` after the loop. -/
def findBatteryInList : List Datastream → Option Datastream
  | [] => none
  | ds :: rest =>
    if isBatteryDatastream ds then some ds else findBatteryInList rest

/-- `SensorThingsBatteryLevel._find_battery_datastream` (sensor.py): first
battery-like datastream in iteration order, or `None`. -/
def findBatteryDatastream (t : Thing) : Option Datastream :=
  findBatteryInList t.datastreams

/-- The generic-sensor creation loop of `async_setup_entry` (sensor.py):
one `SensorThingsDatastream` per non-battery datastream of each Thing,
identified here by its `(thing, datastream)` pair. -/
def genericSensors (things : List Thing) : List (Thing × Datastream) :=
  things.foldr
    (fun t acc =>
      ((t.datastreams.filter (fun ds => !isBatteryDatastream ds)).map (fun ds => (t, ds))) ++ acc)
    []

/-- The diagnostic-sensor creation loop of `async_setup_entry` (sensor.py):
one `SensorThingsBatteryLevel` per Thing having a battery datastream,
identified here by the Thing it was built from. -/
def diagnosticSensors (things : List Thing) : List Thing :=
  things.filter hasBatteryDatastream

/-- `SensorThingsBatteryLevel.icon` (sensor.py) as a function of the value
returned by `native_value`. -/
def batteryIcon (batteryLevel : Option Int) : String :=
  match batteryLevel with
  | none => "mdi:battery-unknown"
  | some v =>
    if v > 75 then "mdi:battery"
    else if v > 50 then "mdi:battery-75"
    else if v > 25 then "mdi:battery-50"
    else if v > 10 then "mdi:battery-25"
    else "mdi:battery-alert"

/-- `DEFAULT_SCAN_INTERVAL` (const.py). -/
def DEFAULT_SCAN_INTERVAL : Int := 60

/-- The scan interval actually handed to the coordinator
(`async_setup_entry`, sensor.py): `entry.options.get(CONF_SCAN_INTERVAL,
DEFAULT_SCAN_INTERVAL)`, the configured option when present, else the
default. -/
def effectiveScanInterval (configured : Option Int) : Int :=
  configured.getD DEFAULT_SCAN_INTERVAL

/-- Modelled from the spec: the options-flow validation of the scan
interval (class `SensorThingsOptionsFlow`, absent from the sources; only
its tests are present, which reject a value of 5 as below the minimum).
Per the spec the configured interval is "bounded to [10s, 3600s]", so a
stored option value must have passed this range check. -/
def validScanIntervalOption (v : Int) : Bool :=
  10 ≤ v && v ≤ 3600

/-! ## MQTT listener (`sensorthings/mqtt_listener.py`) -/

/-- An errno-style Python exception class, as far as the handler's
`try`/`except` clauses distinguish them. -/
inductive PyError where
  | jsonDecodeError
  | keyError
  | attributeError
deriving DecidableEq, Repr

/-- `SensorThingsMQTTListener` state: the client handle (`None` or an
opaque handle), the `subscribers` dict (`datastream_id -> callback`,
callbacks identified by opaque tokens) and the `connected` flag.
`mqtt_host` / `mqtt_port` never change after `__init__` and play no part
in the claims, so they are omitted. -/
structure ListenerState where
  client : Option Unit
  subscribers : List (IotId × Nat)
  connected : Bool
deriving DecidableEq, Repr

/-- Dict lookup `self.subscribers[i]` (with `i in self.subscribers`
membership folded in: `none` = absent). -/
def lookupSub : List (IotId × Nat) → IotId → Option Nat
  | [], _ => none
  | (k, cb) :: rest, i => if k = i then some cb else lookupSub rest i

/-- Dict insert-or-overwrite `self.subscribers[i] = cb`. -/
def insertSub : List (IotId × Nat) → IotId → Nat → List (IotId × Nat)
  | [], i, cb => [(i, cb)]
  | (k, c) :: rest, i, cb =>
    if k = i then (i, cb) :: rest else (k, c) :: insertSub rest i cb

/-- Dict removal `del self.subscribers[i]` (guarded by membership). -/
def removeSub : List (IotId × Nat) → IotId → List (IotId × Nat)
  | [], _ => []
  | (k, c) :: rest, i => if k = i then rest else (k, c) :: removeSub rest i

/-- `SensorThingsMQTTListener.subscribe` (mqtt_listener.py). -/
def subscribe (s : ListenerState) (datastreamId : IotId) (cb : Nat) : ListenerState :=
  { s with subscribers := insertSub s.subscribers datastreamId cb }

/-- `SensorThingsMQTTListener.unsubscribe` (mqtt_listener.py). -/
def unsubscribe (s : ListenerState) (datastreamId : IotId) : ListenerState :=
  { s with subscribers := removeSub s.subscribers datastreamId }

/-- `SensorThingsMQTTListener.is_connected` (mqtt_listener.py):
`self.connected and self.client is not None`. -/
def isConnectedFn (s : ListenerState) : Bool :=
  s.connected && s.client.isSome

/-- `SensorThingsMQTTListener.stop` (mqtt_listener.py): under
`if self.client:` (a client object is always truthy), stop the network
loop and disconnect (external calls on the client, no listener-state
effect), then null the handle and clear the flag. -/
def stop (s : ListenerState) : ListenerState :=
  if s.client.isSome then { s with client := none, connected := false } else s

/-- `SensorThingsMQTTListener._on_connect` (mqtt_listener.py): on `rc = 0`
set `connected = True` (and issue the topic subscription, an external call
on the client); any other `rc` is only logged — no state field is
written. -/
def onConnect (s : ListenerState) (rc : Int) : ListenerState :=
  if rc = 0 then { s with connected := true } else s

/-- `SensorThingsMQTTListener._on_disconnect` (mqtt_listener.py): always
clears the flag; `rc` only selects the log line. -/
def onDisconnect (s : ListenerState) (_rc : Int) : ListenerState :=
  { s with connected := false }

/-- The reference to the parent Datastream inside a push message
(`observation_data.get("Datastream")`), of which only `@iot.id` is read. -/
structure DatastreamRef where
  iotId : Option IotId
deriving DecidableEq, Repr

/-- The decoded JSON object of a push message, restricted to the fields
`_on_message` reads with `.get`. -/
structure ObservationMessage where
  obsId : Option IotId
  datastream : Option DatastreamRef
  result : Option Int
  phenomenonTime : Option String
deriving DecidableEq, Repr

/-- A raw MQTT payload: either bytes that fail `json.loads`, or a decoded
object. -/
inductive RawPayload where
  | invalid
  | valid (msg : ObservationMessage)
deriving DecidableEq, Repr

/-- A subscriber invocation scheduled onto the event loop
(`_notify_subscriber(callback, result, phenomenon_time)`). -/
structure Delivery where
  cb : Nat
  result : Int
  phenomenonTime : Option String
deriving DecidableEq, Repr

/-- The inner `try` body of `_on_message` (mqtt_listener.py):
`observation_data.get("Datastream")` followed by
`datastream_data.get("@iot.id")` — an `AttributeError` when the
`Datastream` field is absent (`None.get`) — then the truthiness guard
`if datastream_id and result is not None:` and the subscriber lookup.
`.ok none` = the body completed without invoking any subscriber. -/
def onMessageInner (msg : ObservationMessage) (subs : List (IotId × Nat)) :
    Except PyError (Option Delivery) :=
  match msg.datastream with
  | none => .error .attributeError
  | some datastreamData =>
    match datastreamData.iotId with
    | none => .ok none
    | some datastreamId =>
      if datastreamId.truthy then
        match msg.result with
        | none => .ok none
        | some result =>
          match lookupSub subs datastreamId with
          | some cb => .ok (some ⟨cb, result, msg.phenomenonTime⟩)
          | none => .ok none
      else .ok none

/-- The inner `except (json.JSONDecodeError, KeyError)` clause of
`_on_message`: those two classes are logged and swallowed; anything else
(the `AttributeError`) propagates. -/
def onMessageInnerCaught (msg : ObservationMessage) (subs : List (IotId × Nat)) :
    Except PyError (Option Delivery) :=
  match onMessageInner msg subs with
  | .error .jsonDecodeError => .ok none
  | .error .keyError => .ok none
  | other => other

/-- The outer `try` body of `_on_message`: `json.loads` (raising on an
invalid payload), `observation_data.get("@iot.id")` and the
`if observation_id is not None:` gate around the inner block. -/
def onMessageBody (p : RawPayload) (subs : List (IotId × Nat)) :
    Except PyError (Option Delivery) :=
  match p with
  | .invalid => .error .jsonDecodeError
  | .valid msg =>
    if msg.obsId.isSome then onMessageInnerCaught msg subs
    else .ok none

/-- `SensorThingsMQTTListener._on_message` (mqtt_listener.py) as seen by
its caller: the outer `except Exception` catches every error and logs it,
so the handler always returns, with at most one scheduled subscriber
invocation. -/
def onMessage (p : RawPayload) (subs : List (IotId × Nat)) : Option Delivery :=
  match onMessageBody p subs with
  | .ok d => d
  | .error _ => none

/-- Handling one message: `_on_message` mutates no listener state; its
only effect is the optional scheduled delivery. -/
def handleMessage (s : ListenerState) (p : RawPayload) :
    ListenerState × Option Delivery :=
  (s, onMessage p s.subscribers)

/-- Handling a sequence of inbound messages, collecting the scheduled
deliveries in order. -/
def handleMessages (s : ListenerState) : List RawPayload → ListenerState × List (Option Delivery)
  | [] => (s, [])
  | p :: rest =>
    let (s1, d) := handleMessage s p
    let (s2, ds) := handleMessages s1 rest
    (s2, d :: ds)

/-! ## Entity value resolvers (`sensorthings/sensor.py`) -/

/-- The mutable / identifying state of a `SensorThingsDatastream` entity:
`self._datastream_id`, `self._thing.get("@iot.id")` (the only field of
`self._thing` that `native_value` reads), `self._mqtt_value` and
`self._mqtt_timestamp`. -/
structure DatastreamEntity where
  datastreamId : Option IotId
  thingIotId : Option IotId
  mqttValue : Option Int
  mqttTimestamp : Option String
deriving DecidableEq, Repr

/-- The inner `for ds in thing.get("Datastreams", [])` loop of
`SensorThingsDatastream.native_value`: on the first id-matching datastream
with a non-empty `Observations` list the method returns
`obs[0].get("result")` (encoded `some r`); falling off the loop is
encoded `none`.  Python compares ids with `==`, under which two absent
ids (`None == None`) match. -/
def scanDatastreams (datastreamId : Option IotId) : List Datastream → Option (Option Int)
  | [] => none
  | ds :: rest =>
    if ds.iotId = datastreamId then
      match ds.observations with
      | obs0 :: _ => some obs0.result
      | [] => scanDatastreams datastreamId rest
    else scanDatastreams datastreamId rest

/-- The outer `for thing in self.coordinator.data` loop of
`SensorThingsDatastream.native_value`: returns from the first matching
thing whose datastream scan returns, else `None` after the loop. -/
def scanThings (thingIotId datastreamId : Option IotId) : List Thing → Option Int
  | [] => none
  | t :: rest =>
    if t.iotId = thingIotId then
      match scanDatastreams datastreamId t.datastreams with
      | some r => r
      | none => scanThings thingIotId datastreamId rest
    else scanThings thingIotId datastreamId rest

/-- `SensorThingsDatastream.native_value` (sensor.py): the MQTT value when
one is set, else the coordinator-data scan. -/
def nativeValue (e : DatastreamEntity) (coordinatorData : List Thing) : Option Int :=
  match e.mqttValue with
  | some v => some v
  | none => scanThings e.thingIotId e.datastreamId coordinatorData

/-- `SensorThingsDatastream._on_mqtt_update` (sensor.py): unconditionally
overwrite the cached MQTT value and timestamp (the
`async_schedule_update_ha_state` call is a host-platform notification
with no effect on this state). -/
def onMqttUpdate (e : DatastreamEntity) (value : Int) (timestamp : Option String) :
    DatastreamEntity :=
  { e with mqttValue := some value, mqttTimestamp := timestamp }

/-- The mutable state of a `SensorThingsBatteryLevel` entity:
`self._battery_datastream` (the dict found at construction time) and the
cached MQTT value/timestamp.  Its `native_value` never reads
`self.coordinator.data`. -/
structure BatteryEntity where
  batteryDatastream : Option Datastream
  mqttValue : Option Int
  mqttTimestamp : Option String
deriving DecidableEq, Repr

/-- `SensorThingsBatteryLevel.__init__` (sensor.py), restricted to the
fields `native_value` reads: captures `_find_battery_datastream(thing)`
once, with no MQTT value yet. -/
def mkBatteryEntity (thing : Thing) : BatteryEntity :=
  { batteryDatastream := findBatteryDatastream thing
    mqttValue := none
    mqttTimestamp := none }

/-- `SensorThingsBatteryLevel.native_value` (sensor.py): the MQTT value
when one is set, else `obs[0].get("result")` of the construction-time
battery datastream's `Observations`, else `None`. -/
def batteryNativeValue (e : BatteryEntity) : Option Int :=
  match e.mqttValue with
  | some v => some v
  | none =>
    match e.batteryDatastream with
    | some ds =>
      match ds.observations with
      | obs0 :: _ => obs0.result
      | [] => none
    | none => none

/-- `SensorThingsBatteryLevel._on_mqtt_update` (sensor.py). -/
def batteryOnMqttUpdate (e : BatteryEntity) (value : Int) (timestamp : Option String) :
    BatteryEntity :=
  { e with mqttValue := some value, mqttTimestamp := timestamp }

/-! ## Session state machine

One generic datastream entity, one battery entity, the coordinator's
current snapshot and the push channel's connected flag, evolved by the
events the claims quantify over.  A push event carries the delivered
`result`, which the listener guard `result is not None` in `_on_message`
has already established to be an actual value; a poll event replaces the
snapshot wholesale (`DataUpdateCoordinator` assigns a freshly parsed
tree, never mutating the old one). -/

structure SysState where
  entity : DatastreamEntity
  battery : BatteryEntity
  data : List Thing
  pushConnected : Bool
deriving DecidableEq, Repr

/-- An event of a session. -/
inductive Event where
  /-- the listener schedules `SensorThingsDatastream._on_mqtt_update(v, ts)` -/
  | pushGeneric (v : Int) (ts : Option String)
  /-- the listener schedules `SensorThingsBatteryLevel._on_mqtt_update(v, ts)` -/
  | pushBattery (v : Int) (ts : Option String)
  /-- a successful coordinator refresh replaces `coordinator.data` -/
  | pollReplace (d : List Thing)
  /-- `_on_disconnect` fires: the push channel drops -/
  | disconnect
deriving DecidableEq, Repr

/-- One step of the session. -/
def stepSys (s : SysState) : Event → SysState
  | .pushGeneric v ts => { s with entity := onMqttUpdate s.entity v ts }
  | .pushBattery v ts => { s with battery := batteryOnMqttUpdate s.battery v ts }
  | .pollReplace d => { s with data := d }
  | .disconnect => { s with pushConnected := false }

/-- Running a list of events. -/
def runSys (s : SysState) : List Event → SysState
  | [] => s
  | e :: rest => runSys (stepSys s e) rest

/-- The value the generic entity's accessor reports in a session state. -/
def genericValue (s : SysState) : Option Int :=
  nativeValue s.entity s.data

/-- The value the battery entity's accessor reports in a session state
(the accessor does not consult `s.data`). -/
def batteryValue (s : SysState) : Option Int :=
  batteryNativeValue s.battery

/-- Accumulate the most recent generic-entity push over one event. -/
def updLastGeneric (acc : Option Int) : Event → Option Int
  | .pushGeneric v _ => some v
  | _ => acc

/-- Accumulate the most recent battery-entity push over one event. -/
def updLastBattery (acc : Option Int) : Event → Option Int
  | .pushBattery v _ => some v
  | _ => acc

/-- The most recent value pushed to the generic entity during a list of
events, if any. -/
def lastPushedGeneric (evs : List Event) : Option Int :=
  evs.foldl updLastGeneric none

/-- The most recent value pushed to the battery entity during a list of
events, if any. -/
def lastPushedBattery (evs : List Event) : Option Int :=
  evs.foldl updLastBattery none

/-- The resolver value as the spec words it (`currentValue()` with no
`lastPushedValue`): find the matching Thing in the current snapshot, find
the matching Datastream in it, and return the result of its most recent
Observation, or none if absent.  Stated from the spec for comparison with
the embedded accessors. -/
def specCurrentValue (thingIotId datastreamId : Option IotId) (data : List Thing) : Option Int :=
  match data.find? (fun t => t.iotId = thingIotId) with
  | none => none
  | some t =>
    match t.datastreams.find? (fun ds => ds.iotId = datastreamId) with
    | none => none
    | some ds =>
      match ds.observations with
      | obs0 :: _ => obs0.result
      | [] => none

/-! ## Predicates and sample data used by the theorems -/

/-- A push message is malformed in the sense of the error-handling
contract: the payload is not valid JSON, or the decoded object lacks the
observation id, lacks the Datastream (or its id), or has a null result. -/
def MalformedPayload : RawPayload → Prop
  | .invalid => True
  | .valid msg =>
    msg.obsId = none
    ∨ msg.datastream = none
    ∨ (∃ dd, msg.datastream = some dd ∧ dd.iotId = none)
    ∨ msg.result = none

/-- The snapshot has at most one Thing matching the entity's thing id,
and within any matching Thing at most one Datastream matching the
entity's datastream id (what "the matching Thing→Datastream" of the spec
presumes). -/
def UniqueMatch (thingIotId datastreamId : Option IotId) (d : List Thing) : Prop :=
  d.countP (fun t => decide (t.iotId = thingIotId)) ≤ 1
  ∧ ∀ t ∈ d, t.iotId = thingIotId →
      t.datastreams.countP (fun ds => decide (ds.iotId = datastreamId)) ≤ 1

/-- Sample temperature datastream (id 10) with a polled observation 22. -/
def dsTempA : Datastream := ⟨some (.num 10), some "Temperature", [⟨some 22, none⟩]⟩

/-- Sample battery datastream (id 20) with a polled observation 85. -/
def dsBatA : Datastream := ⟨some (.num 20), some "Battery Voltage", [⟨some 85, none⟩]⟩

/-- Sample Thing (id 1) owning the two sample datastreams. -/
def thingA : Thing := ⟨some (.num 1), some "Device", [dsTempA, dsBatA]⟩

/-- The same Thing as re-fetched by a later poll: temperature observation
now 23, battery observation now 42. -/
def thingA' : Thing :=
  ⟨some (.num 1), some "Device",
    [⟨some (.num 10), some "Temperature", [⟨some 23, none⟩]⟩,
     ⟨some (.num 20), some "Battery Voltage", [⟨some 42, none⟩]⟩]⟩

/-- The generic entity for `dsTempA` of `thingA`, before any push. -/
def entityA : DatastreamEntity := ⟨some (.num 10), some (.num 1), none, none⟩

/-- A session state right after setup: entities built from `thingA`, the
snapshot holding `thingA`, push channel up. -/
def sysA : SysState := ⟨entityA, mkBatteryEntity thingA, [thingA], true⟩

/-- `sysA` after a successful poll refresh replaced the snapshot with the
re-fetched `thingA'`. -/
def sysA' : SysState := stepSys sysA (.pollReplace [thingA'])

/-! ## Supporting lemmas -/

theorem lookupSub_insertSub (subs : List (IotId × Nat)) (i : IotId) (cb : Nat) :
    lookupSub (insertSub subs i cb) i = some cb := by
  induction subs with
  | nil => simp [insertSub, lookupSub]
  | cons p rest ih =>
    obtain ⟨k, c⟩ := p
    by_cases hk : k = i
    · simp [insertSub, lookupSub, hk]
    · simp [insertSub, lookupSub, hk, ih]

/-! ## Claims -/

/-- C7: `is_connected()` returns true iff the internal connected flag is
true and the client handle is non-null; either condition alone yields
false. -/
theorem C7_is_connected_iff (s : ListenerState) :
    isConnectedFn s = true ↔ (s.connected = true ∧ s.client ≠ none) := by
  simp [isConnectedFn, Bool.and_eq_true, Option.isSome_iff_ne_none]

/-- C9: `stop()` leaves a state with a null client handle on which
`is_connected()` is false; a second `stop()` is a no-op (no error, state
fully unchanged — client handle, connected flag and subscriber map). -/
theorem C9_stop_idempotent (s : ListenerState) :
    isConnectedFn (stop s) = false
    ∧ (stop s).client = none
    ∧ (stop s).subscribers = s.subscribers
    ∧ stop (stop s) = stop s := by
  obtain ⟨client, subs, conn⟩ := s
  cases client <;> simp [stop, isConnectedFn]

/-- C8 counterexample: a connect callback with non-zero return code does
NOT result in `connected = false` when the flag was previously true — the
code leaves the flag untouched on failure codes. -/
theorem C8_counterexample :
    ¬ ((onConnect ⟨some (), [], true⟩ 1).connected = false) := by decide

/-- C8 amended: the connect callback sets `connected = true` exactly on
return code 0; on any non-zero code it performs no state change at all
(so the flag keeps its previous value), and no exception is raised (the
callback is a total state function). -/
theorem C8_amended (s : ListenerState) (rc : Int) :
    (rc = 0 → onConnect s rc = { s with connected := true })
    ∧ (rc ≠ 0 → onConnect s rc = s) := by
  constructor <;> intro h <;> simp [onConnect, h]

/-- Witness for C8 amended: at return code 1 a previously-connected state
is untouched, and at return code 0 the flag is set. -/
theorem C8_amended_witness :
    ((1 : Int) ≠ 0 ∧ onConnect ⟨some (), [], true⟩ 1 = ⟨some (), [], true⟩)
    ∧ ((0 : Int) = 0 ∧ onConnect ⟨some (), [], false⟩ 0 = ⟨some (), [], true⟩) :=
  ⟨⟨by decide, (C8_amended ⟨some (), [], true⟩ 1).2 (by decide)⟩,
   ⟨rfl, (C8_amended ⟨some (), [], false⟩ 0).1 rfl⟩⟩

/-- C6: when the stored scan-interval option passed the options-flow
range validation (or is absent, so the default 60 applies), the interval
handed to the coordinator lies within [10, 3600] seconds. -/
theorem C6_scan_interval_bounded (configured : Option Int)
    (h : ∀ v, configured = some v → validScanIntervalOption v = true) :
    10 ≤ effectiveScanInterval configured ∧ effectiveScanInterval configured ≤ 3600 := by
  cases configured with
  | none => exact ⟨by decide, by decide⟩
  | some v =>
    have hv := h v rfl
    simp only [validScanIntervalOption, Bool.and_eq_true, decide_eq_true_eq] at hv
    simpa [effectiveScanInterval] using hv

/-- Witness for C6 at the configured value 120. -/
theorem C6_scan_interval_bounded_witness :
    10 ≤ effectiveScanInterval (some 120) ∧ effectiveScanInterval (some 120) ≤ 3600 :=
  C6_scan_interval_bounded (some 120)
    (by intro v hv; injection hv with h; subst h; decide)

/-- C10: a well-formed push message whose datastream id is falsy (such as
the integer 0 or the empty string) is dropped without invoking any
subscriber, even though a subscriber is registered under exactly that
id — the routing guard requires a truthy id. -/
theorem C10_falsy_id_dropped (s : ListenerState) (i : IotId) (cb : Nat)
    (oid : IotId) (v : Int) (ts : Option String) (h : i.truthy = false) :
    lookupSub (subscribe s i cb).subscribers i = some cb
    ∧ onMessage (.valid ⟨some oid, some ⟨some i⟩, some v, ts⟩)
        (subscribe s i cb).subscribers = none := by
  refine ⟨lookupSub_insertSub s.subscribers i cb, ?_⟩
  simp [onMessage, onMessageBody, onMessageInnerCaught, onMessageInner, h]

/-- Witness for C10: datastream id 0, subscriber registered under 0. -/
theorem C10_falsy_id_dropped_witness :
    lookupSub (subscribe ⟨some (), [], true⟩ (.num 0) 7).subscribers (.num 0) = some 7
    ∧ onMessage (.valid ⟨some (.num 100), some ⟨some (.num 0)⟩, some 3, none⟩)
        (subscribe ⟨some (), [], true⟩ (.num 0) 7).subscribers = none :=
  C10_falsy_id_dropped ⟨some (), [], true⟩ (.num 0) 7 (.num 100) 3 none (by decide)

/-- C5: the battery icon selector is the exact five-tier step function,
including its boundary behavior and the unknown icon for an absent
value. -/
theorem C5_battery_icon_tiers (v : Int) :
    batteryIcon none = "mdi:battery-unknown"
    ∧ (batteryIcon (some v) = "mdi:battery" ↔ 75 < v)
    ∧ (batteryIcon (some v) = "mdi:battery-75" ↔ (50 < v ∧ v ≤ 75))
    ∧ (batteryIcon (some v) = "mdi:battery-50" ↔ (25 < v ∧ v ≤ 50))
    ∧ (batteryIcon (some v) = "mdi:battery-25" ↔ (10 < v ∧ v ≤ 25))
    ∧ (batteryIcon (some v) = "mdi:battery-alert" ↔ v ≤ 10)
    ∧ batteryIcon (some 76) = "mdi:battery"
    ∧ batteryIcon (some 75) = "mdi:battery-75"
    ∧ batteryIcon (some 51) = "mdi:battery-75"
    ∧ batteryIcon (some 50) = "mdi:battery-50"
    ∧ batteryIcon (some 11) = "mdi:battery-25"
    ∧ batteryIcon (some 10) = "mdi:battery-alert" := by
  refine ⟨rfl, ?_, ?_, ?_, ?_, ?_, by decide, by decide, by decide, by decide,
    by decide, by decide⟩ <;>
    (simp only [batteryIcon]
     split_ifs <;> constructor <;> intro h <;>
       first
         | rfl
         | omega
         | (exfalso; revert h; decide))

/-- C3: a malformed inbound push message (invalid JSON, missing
observation id, missing Datastream or Datastream id, or null result)
causes no subscriber invocation and no exception to the handler's caller
(every raised error — including the `AttributeError` from a missing
`Datastream` — is caught inside `_on_message`); it mutates no listener
state, and a subsequent well-formed message for a registered stream is
still delivered correctly. -/
theorem C3_malformed_swallowed (s : ListenerState) (p : RawPayload)
    (hm : MalformedPayload p) :
    onMessage p s.subscribers = none
    ∧ (handleMessage s p).1 = s
    ∧ ∀ (msg : ObservationMessage) (dd : DatastreamRef) (i : IotId) (r : Int) (cb : Nat),
        msg.obsId.isSome = true → msg.datastream = some dd → dd.iotId = some i →
        i.truthy = true → msg.result = some r → lookupSub s.subscribers i = some cb →
        (handleMessages s [p, .valid msg]).2 = [none, some ⟨cb, r, msg.phenomenonTime⟩] := by
  have hnone : onMessage p s.subscribers = none := by
    cases p with
    | invalid => rfl
    | valid msg =>
      rcases hm with h | h | ⟨dd, hdd, hid⟩ | h
      · simp [onMessage, onMessageBody, h]
      · cases hobs : msg.obsId.isSome <;>
          simp [onMessage, onMessageBody, onMessageInnerCaught, onMessageInner, h, hobs]
      · cases hobs : msg.obsId.isSome <;>
          simp [onMessage, onMessageBody, onMessageInnerCaught, onMessageInner, hdd, hid, hobs]
      · cases hobs : msg.obsId.isSome
        · simp [onMessage, onMessageBody, hobs]
        · rcases hds : msg.datastream with _ | dd
          · simp [onMessage, onMessageBody, onMessageInnerCaught, onMessageInner, hobs, hds]
          · rcases hid : dd.iotId with _ | i
            · simp [onMessage, onMessageBody, onMessageInnerCaught, onMessageInner,
                hobs, hds, hid]
            · cases hti : i.truthy <;>
                simp [onMessage, onMessageBody, onMessageInnerCaught, onMessageInner,
                  hobs, hds, hid, hti, h]
  refine ⟨hnone, rfl, ?_⟩
  intro msg dd i r cb hobs hds hid hti hres hcb
  have hgood : onMessage (.valid msg) s.subscribers = some ⟨cb, r, msg.phenomenonTime⟩ := by
    simp [onMessage, onMessageBody, onMessageInnerCaught, onMessageInner,
      hobs, hds, hid, hti, hres, hcb]
  simp [handleMessages, handleMessage, hnone, hgood]

/-- Witness for C3: an invalid payload followed by a valid observation for
stream 5, whose subscriber token 7 then receives result 3. -/
theorem C3_malformed_swallowed_witness :
    (handleMessages ⟨some (), [(.num 5, 7)], true⟩
      [.invalid, .valid ⟨some (.num 100), some ⟨some (.num 5)⟩, some 3, some "t"⟩]).2
      = [none, some ⟨7, 3, some "t"⟩] :=
  (C3_malformed_swallowed ⟨some (), [(.num 5, 7)], true⟩ .invalid trivial).2.2
    ⟨some (.num 100), some ⟨some (.num 5)⟩, some 3, some "t"⟩ ⟨some (.num 5)⟩
    (.num 5) 3 7 (by decide) rfl rfl (by decide) rfl (by decide)

theorem runSys_entity_mqttValue (s : SysState) (evs : List Event) :
    (runSys s evs).entity.mqttValue = evs.foldl updLastGeneric s.entity.mqttValue := by
  induction evs generalizing s with
  | nil => rfl
  | cons e rest ih =>
    cases e <;> simp [runSys, List.foldl, ih, stepSys, onMqttUpdate, updLastGeneric]

theorem runSys_battery_mqttValue (s : SysState) (evs : List Event) :
    (runSys s evs).battery.mqttValue = evs.foldl updLastBattery s.battery.mqttValue := by
  induction evs generalizing s with
  | nil => rfl
  | cons e rest ih =>
    cases e <;> simp [runSys, List.foldl, ih, stepSys, batteryOnMqttUpdate, updLastBattery]

theorem foldl_updLastGeneric_some (evs : List Event) (init : Option Int) (v : Int)
    (h : List.foldl updLastGeneric none evs = some v) :
    List.foldl updLastGeneric init evs = some v := by
  induction evs generalizing init with
  | nil => simp at h
  | cons e rest ih =>
    cases e with
    | pushGeneric w ts => simpa [List.foldl, updLastGeneric] using h
    | pushBattery w ts => exact ih init (by simpa [List.foldl, updLastGeneric] using h)
    | pollReplace d => exact ih init (by simpa [List.foldl, updLastGeneric] using h)
    | disconnect => exact ih init (by simpa [List.foldl, updLastGeneric] using h)

theorem foldl_updLastBattery_some (evs : List Event) (init : Option Int) (v : Int)
    (h : List.foldl updLastBattery none evs = some v) :
    List.foldl updLastBattery init evs = some v := by
  induction evs generalizing init with
  | nil => simp at h
  | cons e rest ih =>
    cases e with
    | pushBattery w ts => simpa [List.foldl, updLastBattery] using h
    | pushGeneric w ts => exact ih init (by simpa [List.foldl, updLastBattery] using h)
    | pollReplace d => exact ih init (by simpa [List.foldl, updLastBattery] using h)
    | disconnect => exact ih init (by simpa [List.foldl, updLastBattery] using h)

/-- C1: push dominance for the session.  Over any run of events — later
snapshot replacements and push-channel disconnects included — once a push
value has been delivered to an entity, its value accessor reports the most
recently pushed value, never the polled coordinator data (both for the
generic datastream entity and for the battery entity). -/
theorem C1_push_dominance (s : SysState) (evs : List Event) (v w : Int) :
    (lastPushedGeneric evs = some v → genericValue (runSys s evs) = some v)
    ∧ (lastPushedBattery evs = some w → batteryValue (runSys s evs) = some w) := by
  constructor
  · intro h
    have hm : (runSys s evs).entity.mqttValue = some v := by
      rw [runSys_entity_mqttValue]
      exact foldl_updLastGeneric_some evs s.entity.mqttValue v h
    simp [genericValue, nativeValue, hm]
  · intro h
    have hm : (runSys s evs).battery.mqttValue = some w := by
      rw [runSys_battery_mqttValue]
      exact foldl_updLastBattery_some evs s.battery.mqttValue w h
    simp [batteryValue, batteryNativeValue, hm]

/-- Witness for C1: after pushes of 23 (generic) and 77 (battery), a
snapshot replacement and a disconnect, both accessors still report the
pushed values. -/
theorem C1_push_dominance_witness :
    genericValue (runSys sysA
      [.pushGeneric 23 none, .pushBattery 77 none, .pollReplace [thingA'], .disconnect])
      = some 23
    ∧ batteryValue (runSys sysA
      [.pushGeneric 23 none, .pushBattery 77 none, .pollReplace [thingA'], .disconnect])
      = some 77 :=
  ⟨(C1_push_dominance sysA
      [.pushGeneric 23 none, .pushBattery 77 none, .pollReplace [thingA'], .disconnect]
      23 77).1 (by decide),
   (C1_push_dominance sysA
      [.pushGeneric 23 none, .pushBattery 77 none, .pollReplace [thingA'], .disconnect]
      23 77).2 (by decide)⟩

theorem startsChars_iff (p l : List Char) :
    startsChars p l = true ↔ ∃ t, p ++ t = l := by
  induction p generalizing l with
  | nil => simp [startsChars]
  | cons a as ih =>
    cases l with
    | nil => simp [startsChars]
    | cons b bs =>
      simp [startsChars, Bool.and_eq_true, decide_eq_true_eq, ih, List.cons.injEq]

theorem containsSub_iff (hay pat : List Char) :
    containsSub hay pat = true ↔ ∃ l1 l2, hay = l1 ++ pat ++ l2 := by
  induction hay with
  | nil =>
    simp only [containsSub, List.isEmpty_iff]
    constructor
    · rintro rfl; exact ⟨[], [], rfl⟩
    · rintro ⟨l1, l2, h⟩
      rcases List.append_eq_nil.mp (List.append_eq_nil.mp h.symm).1 with ⟨-, hp⟩
      exact hp
  | cons c t ih =>
    simp only [containsSub, Bool.or_eq_true, startsChars_iff, ih]
    constructor
    · rintro (⟨t', ht⟩ | ⟨l1, l2, h⟩)
      · exact ⟨[], t', ht.symm⟩
      · exact ⟨c :: l1, l2, by simp [h]⟩
    · rintro ⟨l1, l2, h⟩
      cases l1 with
      | nil => exact Or.inl ⟨l2, by simpa using h.symm⟩
      | cons c' l1' =>
        simp only [List.cons_append, List.cons.injEq] at h
        exact Or.inr ⟨l1', l2, h.2⟩

theorem mem_genericSensors (things : List Thing) (t : Thing) (ds : Datastream) :
    (t, ds) ∈ genericSensors things
      ↔ (t ∈ things ∧ ds ∈ t.datastreams ∧ isBatteryDatastream ds = false) := by
  induction things with
  | nil => simp [genericSensors]
  | cons a rest ih =>
    rw [show genericSensors (a :: rest)
        = ((a.datastreams.filter (fun x => !isBatteryDatastream x)).map (fun x => (a, x)))
          ++ genericSensors rest from rfl]
    simp only [List.mem_append, List.mem_map, List.mem_filter, ih, List.mem_cons,
      Prod.mk.injEq, Bool.not_eq_true', Bool.not_eq_true]
    constructor
    · rintro (⟨x, ⟨hx, hbx⟩, ha, rfl⟩ | ⟨ht, hds, hb⟩)
      · exact ⟨Or.inl ha.symm, by rwa [← ha], hbx⟩
      · exact ⟨Or.inr ht, hds, hb⟩
    · rintro ⟨rfl | ht, hds, hb⟩
      · exact Or.inl ⟨ds, ⟨hds, hb⟩, rfl, rfl⟩
      · exact Or.inr ⟨ht, hds, hb⟩

theorem countP_diagnosticSensors (things : List Thing) (t : Thing) :
    (diagnosticSensors things).countP (fun x => decide (x = t))
      = if hasBatteryDatastream t then things.countP (fun x => decide (x = t)) else 0 := by
  induction things with
  | nil => cases hasBatteryDatastream t <;> simp [diagnosticSensors]
  | cons a rest ih =>
    cases hb : hasBatteryDatastream a with
    | true =>
      rw [show diagnosticSensors (a :: rest) = a :: diagnosticSensors rest from by
        simp [diagnosticSensors, List.filter_cons, hb]]
      by_cases hat : a = t
      · subst hat
        simp [List.countP_cons, ih, hb]
      · simp [List.countP_cons, hat, ih]
    | false =>
      rw [show diagnosticSensors (a :: rest) = diagnosticSensors rest from by
        simp [diagnosticSensors, List.filter_cons, hb]]
      by_cases hat : a = t
      · subst hat
        simp [List.countP_cons, ih, hb]
      · simp [List.countP_cons, hat, ih]

theorem findBatteryInList_isSome (l : List Datastream) :
    (findBatteryInList l).isSome = l.any isBatteryDatastream := by
  induction l with
  | nil => rfl
  | cons ds rest ih =>
    cases hb : isBatteryDatastream ds <;> simp [findBatteryInList, hb, ih, List.any_cons]

theorem findBatteryInList_first (l : List Datastream) (d : Datastream)
    (h : findBatteryInList l = some d) :
    isBatteryDatastream d = true
    ∧ ∃ l1 l2, l = l1 ++ d :: l2 ∧ ∀ x ∈ l1, isBatteryDatastream x = false := by
  induction l with
  | nil => simp [findBatteryInList] at h
  | cons ds rest ih =>
    cases hb : isBatteryDatastream ds with
    | true =>
      rw [findBatteryInList, if_pos hb] at h
      obtain rfl := Option.some.injEq _ _ ▸ h
      exact ⟨hb, [], rest, rfl, by simp⟩
    | false =>
      rw [findBatteryInList, if_neg (by simp [hb])] at h
      obtain ⟨hd, l1, l2, hl, hall⟩ := ih h
      refine ⟨hd, ds :: l1, l2, by simp [hl], ?_⟩
      intro x hx
      rcases List.mem_cons.mp hx with rfl | hx'
      · exact hb
      · exact hall x hx'

/-- C4: a Datastream is classified battery-like iff its lowercased display
name contains "battery" or "power"; battery-like datastreams are exactly
the ones excluded from generic-sensor creation; a Thing receives exactly
one diagnostic battery entity iff it has at least one battery-like
datastream (counted per occurrence in the snapshot); and that entity is
fed by the first battery-like datastream in iteration order. -/
theorem C4_battery_classification (things : List Thing) (t : Thing) (ds : Datastream) :
    (isBatteryDatastream ds = true
      ↔ ((∃ l1 l2, lowerChars (ds.name.getD "") = l1 ++ "battery".data ++ l2)
         ∨ (∃ l1 l2, lowerChars (ds.name.getD "") = l1 ++ "power".data ++ l2)))
    ∧ ((t, ds) ∈ genericSensors things
      ↔ (t ∈ things ∧ ds ∈ t.datastreams ∧ isBatteryDatastream ds = false))
    ∧ ((diagnosticSensors things).countP (fun x => decide (x = t))
        = if hasBatteryDatastream t then things.countP (fun x => decide (x = t)) else 0)
    ∧ (hasBatteryDatastream t = true ↔ (findBatteryDatastream t).isSome = true)
    ∧ (∀ d, findBatteryDatastream t = some d →
        isBatteryDatastream d = true
        ∧ ∃ l1 l2, t.datastreams = l1 ++ d :: l2 ∧ ∀ x ∈ l1, isBatteryDatastream x = false) := by
  refine ⟨?_, mem_genericSensors things t ds, countP_diagnosticSensors things t, ?_, ?_⟩
  · simp [isBatteryDatastream, Bool.or_eq_true, containsSub_iff]
  · simp [hasBatteryDatastream, findBatteryDatastream, findBatteryInList_isSome]
  · intro d hd
    exact findBatteryInList_first t.datastreams d hd

/-- Witness for C4: `thingA`'s battery entity is fed by `dsBatA`, the
first (and only) battery-like datastream, which is battery-like. -/
theorem C4_battery_classification_witness :
    findBatteryDatastream thingA = some dsBatA ∧ isBatteryDatastream dsBatA = true :=
  ⟨by decide,
   ((C4_battery_classification [thingA] thingA dsBatA).2.2.2.2 dsBatA (by decide)).1⟩

theorem scanDatastreams_of_no_match (dsid : Option IotId) (l : List Datastream)
    (h : ∀ ds ∈ l, ¬ ds.iotId = dsid) :
    scanDatastreams dsid l = none := by
  induction l with
  | nil => rfl
  | cons ds rest ih =>
    rw [scanDatastreams, if_neg (h ds (List.mem_cons_self ds rest))]
    exact ih (fun x hx => h x (List.mem_cons_of_mem ds hx))

theorem scanThings_of_no_match (tid dsid : Option IotId) (d : List Thing)
    (h : ∀ t ∈ d, ¬ t.iotId = tid) :
    scanThings tid dsid d = none := by
  induction d with
  | nil => rfl
  | cons t rest ih =>
    rw [scanThings, if_neg (h t (List.mem_cons_self t rest))]
    exact ih (fun x hx => h x (List.mem_cons_of_mem t hx))

theorem scanDatastreams_eq_find (dsid : Option IotId) (l : List Datastream)
    (h : l.countP (fun ds => decide (ds.iotId = dsid)) ≤ 1) :
    scanDatastreams dsid l
      = (l.find? (fun ds => decide (ds.iotId = dsid))).bind
          (fun ds => match ds.observations with | o :: _ => some o.result | [] => none) := by
  induction l with
  | nil => rfl
  | cons ds rest ih =>
    by_cases hd : ds.iotId = dsid
    · rw [List.countP_cons] at h
      have hone : (if (fun x : Datastream => decide (x.iotId = dsid)) ds = true
          then 1 else 0) = 1 := by simp [hd]
      rw [hone] at h
      have hrest : rest.countP (fun x => decide (x.iotId = dsid)) = 0 := by omega
      have hnm : ∀ x ∈ rest, ¬ x.iotId = dsid := by
        intro x hx
        have := List.countP_eq_zero.mp hrest x hx
        simpa using this
      rw [scanDatastreams, if_pos hd, List.find?_cons_of_pos _ (by simp [hd])]
      cases hobs : ds.observations with
      | cons o rest2 => simp [hobs]
      | nil => simp [hobs, scanDatastreams_of_no_match dsid rest hnm]
    · rw [scanDatastreams, if_neg hd, List.find?_cons_of_neg _ (by simp [hd])]
      refine ih ?_
      rw [List.countP_cons] at h
      simpa [hd] using h

theorem scanThings_eq_spec (tid dsid : Option IotId) (d : List Thing)
    (hu : UniqueMatch tid dsid d) :
    scanThings tid dsid d = specCurrentValue tid dsid d := by
  induction d with
  | nil => rfl
  | cons t rest ih =>
    obtain ⟨hc, hin⟩ := hu
    by_cases ht : t.iotId = tid
    · rw [List.countP_cons] at hc
      have hone : (if (fun x : Thing => decide (x.iotId = tid)) t = true
          then 1 else 0) = 1 := by simp [ht]
      rw [hone] at hc
      have hrest : rest.countP (fun x => decide (x.iotId = tid)) = 0 := by omega
      have hnm : ∀ x ∈ rest, ¬ x.iotId = tid := by
        intro x hx
        have := List.countP_eq_zero.mp hrest x hx
        simpa using this
      have hinner := hin t (List.mem_cons_self t rest) ht
      have hf : List.find? (fun x => decide (x.iotId = tid)) (t :: rest) = some t :=
        List.find?_cons_of_pos _ (by simp [ht])
      rw [scanThings, if_pos ht, scanDatastreams_eq_find dsid t.datastreams hinner]
      unfold specCurrentValue
      rw [hf]
      rcases hfd : t.datastreams.find? (fun ds => decide (ds.iotId = dsid)) with _ | ds0
      · simp [hfd, scanThings_of_no_match tid dsid rest hnm]
      · cases hobs : ds0.observations with
        | cons o rest2 => simp [hfd, hobs]
        | nil => simp [hfd, hobs, scanThings_of_no_match tid dsid rest hnm]
    · have hf : List.find? (fun x => decide (x.iotId = tid)) (t :: rest)
          = List.find? (fun x => decide (x.iotId = tid)) rest :=
        List.find?_cons_of_neg _ (by simp [ht])
      have hspec : specCurrentValue tid dsid (t :: rest) = specCurrentValue tid dsid rest := by
        unfold specCurrentValue
        rw [hf]
      rw [scanThings, if_neg ht, hspec]
      refine ih ⟨?_, fun x hx hxt => hin x (List.mem_cons_of_mem t hx) hxt⟩
      rw [List.countP_cons] at hc
      simpa [ht] using hc

/-- C2 counterexample: after the snapshot is replaced (battery observation
now 42), the battery entity's accessor still reports 85, the value of the
construction-time snapshot — it does not return the most recent
Observation of the matching Thing→Datastream of the CURRENT snapshot. -/
theorem C2_counterexample :
    batteryValue sysA' = some 85
    ∧ specCurrentValue (some (.num 1)) (some (.num 20)) sysA'.data = some 42
    ∧ batteryValue sysA' ≠ specCurrentValue (some (.num 1)) (some (.num 20)) sysA'.data := by
  decide

/-- C2 amended: with no pushed value recorded, the GENERIC datastream
entity's accessor returns the result of the most recent Observation of
the matching Thing→Datastream of the CURRENT snapshot (stated against the
spec-worded resolver, for a snapshot whose ids identify at most one
match), so it reflects snapshot replacements; the BATTERY entity's
accessor instead reads the battery datastream captured at construction,
and a snapshot replacement never changes its value. -/
theorem C2_amended (s : SysState) (d : List Thing)
    (hg : s.entity.mqttValue = none)
    (hu : UniqueMatch s.entity.thingIotId s.entity.datastreamId d) :
    genericValue (stepSys s (.pollReplace d))
      = specCurrentValue s.entity.thingIotId s.entity.datastreamId d
    ∧ batteryValue (stepSys s (.pollReplace d)) = batteryValue s := by
  refine ⟨?_, rfl⟩
  simp only [genericValue, stepSys, nativeValue, hg]
  exact scanThings_eq_spec s.entity.thingIotId s.entity.datastreamId d hu

/-- Witness for C2 amended: replacing `sysA`'s snapshot with the
re-fetched Thing makes the generic entity report the new snapshot's value
while the battery entity's value is unchanged. -/
theorem C2_amended_witness :
    genericValue (stepSys sysA (.pollReplace [thingA']))
      = specCurrentValue sysA.entity.thingIotId sysA.entity.datastreamId [thingA']
    ∧ batteryValue (stepSys sysA (.pollReplace [thingA'])) = batteryValue sysA :=
  C2_amended sysA [thingA'] rfl (by constructor <;> decide)
